import Mathlib

/-!
Shallow embedding of the bulb state synchronization engine of MagicCloneLED
(`src/backend/bulb_manager.py`, `src/backend/led_controller.py`,
`src/backend/color_utils.py`).

Modelling conventions:
* Machine time (`datetime.now()`, `loop.time()`) is a rational number of
  seconds passed explicitly to each operation as `now`.
* The TCP transport is an oracle input: a status query's outcome is a
  `TransportResult` (either "some exception was raised during
  connect/write/read/timeout" or "these bytes were read"), and a command's
  outcome is a `Bool` (the value `LEDController._send_command` returns).
* Python `int` fields are `Int`; raw response bytes are `Nat`.
* Stateful methods become pure functions from the old state (plus oracle
  inputs) to the new state and the returned value.
-/

namespace MagicClone

/-! ### color_utils.py -/

/-- Python float modulo by 6 (`x % 6`), as used in `rgb_to_hsv`:
the representative of `x` in `[0, 6)`. -/
def pymod6 (x : ℚ) : ℚ := x - 6 * ((⌊x / 6⌋ : Int) : ℚ)

/-- Python `int(...)` applied to a (nonnegative-or-negative) number:
truncation toward zero. -/
def pyint (q : ℚ) : Int := if 0 ≤ q then ⌊q⌋ else -⌊-q⌋

/-- `color_utils.rgb_to_hsv`: RGB (0-255 ints) to `(h, s, v)` with
`h` in 0-360, `s`,`v` in 0-100.  Python float arithmetic is modelled
exactly over `ℚ`. -/
def rgb_to_hsv (r g b : Int) : ℚ × ℚ × ℚ :=
  let r_norm : ℚ := (r : ℚ) / 255
  let g_norm : ℚ := (g : ℚ) / 255
  let b_norm : ℚ := (b : ℚ) / 255
  let max_val := max r_norm (max g_norm b_norm)
  let min_val := min r_norm (min g_norm b_norm)
  let delta := max_val - min_val
  let v := max_val * 100
  let s := if max_val = 0 then 0 else (delta / max_val) * 100
  let h :=
    if delta = 0 then 0
    else if max_val = r_norm then 60 * pymod6 ((g_norm - b_norm) / delta)
    else if max_val = g_norm then 60 * ((b_norm - r_norm) / delta + 2)
    else 60 * ((r_norm - g_norm) / delta + 4)
  (h, s, v)

/-! ### led_controller.py -/

/-- The dict `LEDController.get_status` builds (all six keys are always
present when it constructs one). -/
structure Status where
  online : Bool
  powerOn : Bool  -- `on` in the source; `on` is a reserved token in Lean
  r : Nat
  g : Nat
  b : Nat
  warm_white : Nat
  deriving DecidableEq, Repr

/-- Outcome of the raw status exchange with the device: either some
`Exception` was raised (connection/write/read error or timeout), or a byte
string was read back.  `asyncio.CancelledError` is a `BaseException` and is
not caught by the `except Exception` handlers, so cancellation is outside
this model. -/
inductive TransportResult where
  | raises
  | response (bytes : List Nat)
  deriving DecidableEq, Repr

/-- The literal `offline_status` dict at the bottom of
`LEDController.get_status`. -/
def offline_status : Status :=
  { online := false, powerOn := false, r := 0, g := 0, b := 0, warm_white := 0 }

/-- `LEDController.get_status`.  Any exception inside the `try` is caught and
control falls through to `return offline_status`; a response shorter than 14
bytes skips the `return status` and also falls through to `offline_status`.
The Python return type is `Optional[Dict]`, hence `Option Status` here. -/
def get_status : TransportResult → Option Status
  | .raises => some offline_status
  | .response bytes =>
    if bytes.length ≥ 14 then
      some { online := true,
             powerOn := bytes.getD 2 0 == 0x23,
             r := bytes.getD 6 0,
             g := bytes.getD 7 0,
             b := bytes.getD 8 0,
             warm_white := bytes.getD 9 0 }
    else some offline_status

/-! ### bulb_manager.py : BulbState -/

/-- The `BulbState` dataclass. -/
structure BulbState where
  name : String
  ip : String
  online : Bool := false
  powerOn : Bool := false  -- `on` in the source; `on` is a reserved token in Lean
  r : Int := 0
  g : Int := 0
  b : Int := 0
  warm_white : Int := 0
  h : ℚ := 0
  s : ℚ := 0
  v : ℚ := 0
  last_updated : Option ℚ := none
  last_command_time : Option ℚ := none
  poll_interval : Nat := 60
  consecutive_failures : Nat := 0
  deriving DecidableEq, Repr

/-- A freshly configured bulb (`BulbState(name=name, ip=ip)`). -/
def BulbState.init (name ip : String) : BulbState := { name := name, ip := ip }

/-- `BulbManager._update_hsv_from_rgb`; also stamps `last_updated`
with `datetime.now()` (passed as `now`). -/
def update_hsv_from_rgb (st : BulbState) (now : ℚ) : BulbState :=
  if st.warm_white > 0 then
    { st with h := 0, s := 0, v := ((st.warm_white : ℚ) / 255) * 100,
              last_updated := some now }
  else
    let hsv := rgb_to_hsv st.r st.g st.b
    { st with h := hsv.1, s := hsv.2.1, v := hsv.2.2, last_updated := some now }

/-- Result of one `refresh_bulb` call: the new bulb state, the returned
boolean, and (instrumentation) whether the transport status query
(`controller.get_status()`) was actually awaited on this path. -/
structure RefreshResult where
  bulb : BulbState
  ret : Bool
  queried : Bool
  deriving DecidableEq, Repr

/-- The part of `BulbManager.refresh_bulb` after the recent-command guard:
`status = await controller.get_status()` (exceptions caught to `None`,
which `get_status` never produces — see `get_status`), the
`not isinstance(status, dict)` offline branch, and the reconciliation
branch that copies the response fields and recomputes HSV. -/
def refresh_query (st : BulbState) (now : ℚ) (tr : TransportResult) : RefreshResult :=
  match get_status tr with
  | none => ⟨{ st with online := false }, false, true⟩
  | some s =>
      let st1 :=
        { st with
          online := s.online
          powerOn := s.powerOn
          r := (s.r : Int)
          g := (s.g : Int)
          b := (s.b : Int)
          warm_white := (s.warm_white : Int) }
      let st2 := update_hsv_from_rgb st1 now
      ⟨st2, st2.online, true⟩

/-- `BulbManager.refresh_bulb` for a known bulb: if a command was sent less
than 5 seconds ago, return the cached `online` flag without touching the
network; otherwise query and reconcile. -/
def refresh_bulb (st : BulbState) (now : ℚ) (tr : TransportResult) : RefreshResult :=
  match st.last_command_time with
  | some t =>
      if now - t < 5 then ⟨st, st.online, false⟩
      else refresh_query st now tr
  | none => refresh_query st now tr

/-- The mutation `BulbManager.set_rgb` performs on success. -/
def apply_rgb (st : BulbState) (r g b : Int) (now : ℚ) : BulbState :=
  update_hsv_from_rgb
    { st with powerOn := true, r := r, g := g, b := b, warm_white := 0,
              last_command_time := some now } now

/-- `BulbManager.set_rgb` for a known bulb; `success` is the boolean the
serialized transport command returned. -/
def set_rgb (st : BulbState) (r g b : Int) (now : ℚ) (success : Bool) :
    BulbState × Bool :=
  if success then (apply_rgb st r g b now, true) else (st, false)

/-- `BulbManager.set_power` for a known bulb. -/
def set_power (st : BulbState) (onFlag : Bool) (now : ℚ) (success : Bool) :
    BulbState × Bool :=
  if success then ({ st with powerOn := onFlag, last_command_time := some now }, true)
  else (st, false)

/-- The mutation `BulbManager.set_warm_white` performs on success;
`brightness_255 = int((brightness / 100) * 255)`. -/
def apply_warm_white (st : BulbState) (brightness : Int) (now : ℚ) : BulbState :=
  let brightness_255 := pyint (((brightness : ℚ) / 100) * 255)
  update_hsv_from_rgb
    { st with powerOn := true, r := 0, g := 0, b := 0, warm_white := brightness_255,
              last_command_time := some now } now

/-- `BulbManager.set_warm_white` for a known bulb. -/
def set_warm_white (st : BulbState) (brightness : Int) (now : ℚ) (success : Bool) :
    BulbState × Bool :=
  if success then (apply_warm_white st brightness now, true) else (st, false)

/-- `BulbManager._update_poll_interval`. -/
def update_poll_interval (st : BulbState) (success : Bool) : BulbState :=
  if success then { st with consecutive_failures := 0, poll_interval := 60 }
  else
    let st1 := { st with consecutive_failures := st.consecutive_failures + 1 }
    if st1.consecutive_failures = 1 then { st1 with poll_interval := 120 }
    else if st1.consecutive_failures = 2 then { st1 with poll_interval := 300 }
    else { st1 with poll_interval := 600 }

/-! ### bulb_manager.py : BulbManager

`BulbManager` keeps parallel dicts `bulbs`, `controllers`, `command_locks`,
`last_transport_command` all keyed by bulb name; `_setup_controllers`
registers exactly one controller (and lock) per configured bulb, so
"`name in self.controllers`" coincides with "`name in self.bulbs`", which
the model expresses through `bulbKeys`.  Locks and the 0.12 s / 0.02 s
pacing delays only affect timing, not state, and are not modelled. -/

structure BulbManager where
  bulbs : List (String × BulbState)
  groups : List (String × List String)

/-- The key set of `self.bulbs` (= of `self.controllers`). -/
def BulbManager.bulbKeys (m : BulbManager) : List String := m.bulbs.map Prod.fst

/-- Mutation of the entry `self.bulbs[name]` in place. -/
def updateBulb (l : List (String × BulbState)) (name : String)
    (f : BulbState → BulbState) : List (String × BulbState) :=
  l.map fun p => if p.1 = name then (p.1, f p.2) else p

/-- `BulbManager.resolve_targets`, inner loop body for one `target`; the
accumulator is the pair (`seen` set, `resolved` list). -/
def resolveStep (m : BulbManager) (acc : List String × List String)
    (target : String) : List String × List String :=
  if target ∈ m.bulbKeys then
    if target ∉ acc.1 then (target :: acc.1, acc.2 ++ [target]) else acc
  else
    match m.groups.lookup target with
    | some members =>
        members.foldl
          (fun acc2 bulb_name =>
            if bulb_name ∈ m.bulbKeys ∧ bulb_name ∉ acc2.1 then
              (bulb_name :: acc2.1, acc2.2 ++ [bulb_name])
            else acc2)
          acc
    | none => acc

/-- `BulbManager.resolve_targets`. -/
def BulbManager.resolve_targets (m : BulbManager) (targets : List String) :
    List String :=
  (targets.foldl (resolveStep m) ([], [])).2

/-- `BulbManager.set_rgb`: unknown names fail immediately; otherwise
`_run_serialized_command` yields the transport's boolean `cmdSuccess`, and
on success the cached entry is mutated via `apply_rgb`. -/
def BulbManager.set_rgb (m : BulbManager) (name : String) (r g b : Int)
    (now : ℚ) (cmdSuccess : Bool) : BulbManager × Bool :=
  if name ∈ m.bulbKeys then
    if cmdSuccess then
      ({ m with bulbs := updateBulb m.bulbs name fun st => apply_rgb st r g b now },
       cmdSuccess)
    else (m, cmdSuccess)
  else (m, false)

/-- `BulbManager.set_group_rgb`: resolve the targets, then run the
single-device `set_rgb` for each in order, collecting each device's own
boolean into the results dict.  `succ` is the per-device transport
outcome oracle; the 0.02 s spacing sleep between devices is timing only. -/
def BulbManager.set_group_rgb (m : BulbManager) (group_names : List String)
    (r g b : Int) (now : ℚ) (succ : String → Bool) :
    BulbManager × List (String × Bool) :=
  (m.resolve_targets group_names).foldl
    (fun acc name =>
      let res := BulbManager.set_rgb acc.1 name r g b now (succ name)
      (res.1, acc.2 ++ [(name, res.2)]))
    (m, [])

/-- The `refresh_bulb` calls `BulbManager.force_refresh_all` gathers:
one per configured bulb, each against its own transport outcome
(`trs name`). -/
def BulbManager.force_refresh_calls (m : BulbManager) (now : ℚ)
    (trs : String → TransportResult) : List (String × RefreshResult) :=
  m.bulbs.map fun p => (p.1, refresh_bulb p.2 now (trs p.1))

/-- `BulbManager.force_refresh_all`: `asyncio.gather` over `refresh_bulb`
for every name in `self.bulbs.keys()`, zipped back into a name → bool
dict.  The bulbs are distinct dict entries, so the concurrent execution
is state-equivalent to the per-entry map. -/
def BulbManager.force_refresh_all (m : BulbManager) (now : ℚ)
    (trs : String → TransportResult) : BulbManager × List (String × Bool) :=
  let calls := m.force_refresh_calls now trs
  ({ m with bulbs := calls.map fun p => (p.1, p.2.bulb) },
   calls.map fun p => (p.1, p.2.ret))

/-! ### Notification bus -/

/-- A subscriber callback: applied to the changed bulb state, it either
returns normally or raises (modelled as `Except.error` carrying the
exception message). -/
abbrev Subscriber : Type := BulbState → Except String Unit

/-- `BulbManager._notify_subscribers`: iterate over all subscribers; each
callback invocation is wrapped in `try/except Exception`, a raise being
caught and logged.  The result is (number of callbacks invoked, log of
caught exception messages); the Python method itself returns `None` and
lets no exception escape, hence the plain (non-`Except`) result type. -/
def notify_subscribers (subs : List Subscriber) (st : BulbState) :
    Nat × List String :=
  subs.foldl
    (fun acc cb =>
      match cb st with
      | .ok _ => (acc.1 + 1, acc.2)
      | .error e => (acc.1 + 1, acc.2 ++ [e]))
    (0, [])

/-! ### Derived predicates and scenarios -/

/-- The recent-command guard of `refresh_bulb` does not fire: either no
command was ever sent, or the last one is at least 5 seconds old. -/
abbrev guardInactive (st : BulbState) (now : ℚ) : Prop :=
  ∀ t, st.last_command_time = some t → ¬(now - t < 5)

/-- A failed status query: the transport raised, or the response carried
fewer than 14 bytes. -/
abbrev failedQuery (tr : TransportResult) : Prop :=
  tr = .raises ∨ ∃ bytes, tr = .response bytes ∧ bytes.length < 14

/-- The warm-white exclusivity invariant: `warm_white > 0` implies
`r = g = b = 0`. -/
abbrev ww_inv (st : BulbState) : Prop :=
  st.warm_white > 0 → st.r = 0 ∧ st.g = 0 ∧ st.b = 0

/-- Cached states reachable from a given state by any sequence of
`set_power` / `set_rgb` / `set_warm_white` / `refresh_bulb` operations,
with arbitrary command outcomes and transport responses. -/
inductive Reachable : BulbState → BulbState → Prop where
  | refl (st : BulbState) : Reachable st st
  | power {a b : BulbState} (onFlag : Bool) (now : ℚ) (success : Bool) :
      Reachable a b → Reachable a (set_power b onFlag now success).1
  | rgb {a b : BulbState} (r g bl : Int) (now : ℚ) (success : Bool) :
      Reachable a b → Reachable a (set_rgb b r g bl now success).1
  | warmWhite {a b : BulbState} (brightness : Int) (now : ℚ) (success : Bool) :
      Reachable a b → Reachable a (set_warm_white b brightness now success).1
  | refresh {a b : BulbState} (now : ℚ) (tr : TransportResult) :
      Reachable a b → Reachable a (refresh_bulb b now tr).bulb

/-- The configuration of the spec's resolver example: devices `lamp` and
`sconce`, group `livingroom = [lamp, sconce]`. -/
def exampleManager : BulbManager :=
  { bulbs := [("lamp", BulbState.init "lamp" "192.168.1.10"),
              ("sconce", BulbState.init "sconce" "192.168.1.11")],
    groups := [("livingroom", ["lamp", "sconce"]),
               ("porch", ["ghost", "sconce", "lamp"])] }

/-- Two known devices, one of which will fail its transport command. -/
def brokenManager : BulbManager :=
  { bulbs := [("lamp", BulbState.init "lamp" "192.168.1.10"),
              ("brokenbulb", BulbState.init "brokenbulb" "192.168.1.12")],
    groups := [] }

/-- A bulb with cached color, online, never commanded. -/
def exBulbC1 : BulbState :=
  { BulbState.init "lamp" "192.168.1.10" with
    online := true, r := 200, g := 10, b := 30 }

/-- A bulb last commanded at time 0 (so a refresh at time 2 is within the
5-second guard window), cached online. -/
def exBulbC2 : BulbState :=
  { BulbState.init "lamp" "192.168.1.10" with
    online := true, last_command_time := some 0 }

/-- A manager whose single bulb was commanded 2 seconds before the
force-refresh. -/
def managerC2 : BulbManager := { bulbs := [("lamp", exBulbC2)], groups := [] }

/-- A 14-byte status response reporting both a nonzero red (byte 6) and a
nonzero warm-white (byte 9). -/
def badBytes : List Nat := [129, 35, 35, 0, 0, 0, 1, 0, 0, 1, 0, 0, 0, 0]

/-! ### Helper lemmas -/

lemma lookup_mem_keys :
    ∀ {l : List (String × BulbState)} {a : String} {b : BulbState},
      l.lookup a = some b → a ∈ l.map Prod.fst := by
  intro l
  induction l with
  | nil => intro a b h; simp [List.lookup] at h
  | cons p t ih =>
      intro a b h
      simp only [List.lookup] at h
      rcases hab : (a == p.1) with _ | _
      · rw [hab] at h
        simpa using Or.inr (ih h)
      · have : a = p.1 := by simpa using hab
        simp [this]

lemma keys_updateBulb (l : List (String × BulbState)) (a : String)
    (f : BulbState → BulbState) :
    (updateBulb l a f).map Prod.fst = l.map Prod.fst := by
  induction l with
  | nil => rfl
  | cons p t ih =>
      simp only [updateBulb, List.map] at ih ⊢
      split <;> simp_all

lemma lookup_updateBulb (l : List (String × BulbState)) (a : String)
    (f : BulbState → BulbState) :
    (updateBulb l a f).lookup a = (l.lookup a).map f := by
  induction l with
  | nil => rfl
  | cons p t ih =>
      obtain ⟨k, v⟩ := p
      by_cases hp : k = a
      · subst hp
        have h1 : updateBulb ((k, v) :: t) k f = (k, f v) :: updateBulb t k f := by
          simp [updateBulb]
        rw [h1, List.lookup_cons_self, List.lookup_cons_self]
        rfl
      · have h1 : updateBulb ((k, v) :: t) a f = (k, v) :: updateBulb t a f := by
          simp [updateBulb, hp]
        have hb : (a == k) = false := beq_eq_false_iff_ne.mpr (Ne.symm hp)
        rw [h1, List.lookup_cons, List.lookup_cons, hb]
        exact ih

lemma set_rgb_keys (m : BulbManager) (n : String) (r g b : Int) (now : ℚ)
    (c : Bool) : (BulbManager.set_rgb m n r g b now c).1.bulbKeys = m.bulbKeys := by
  unfold BulbManager.set_rgb
  split
  · split
    · simpa [BulbManager.bulbKeys] using keys_updateBulb m.bulbs n _
    · rfl
  · rfl

lemma set_rgb_ret (m : BulbManager) (n : String) (r g b : Int) (now : ℚ)
    (c : Bool) (h : n ∈ m.bulbKeys) :
    (BulbManager.set_rgb m n r g b now c).2 = c := by
  unfold BulbManager.set_rgb
  rw [if_pos h]
  split <;> rfl

/-- Invariant carried through the resolver's accumulator `(seen, resolved)`:
`resolved` is duplicate-free, contains only known bulb names, and is
contained in `seen`. -/
def ResolveInv (keys : List String) (acc : List String × List String) : Prop :=
  acc.2.Nodup ∧ (∀ x ∈ acc.2, x ∈ keys) ∧ (∀ x ∈ acc.2, x ∈ acc.1)

lemma resolveInv_push {keys : List String} {acc : List String × List String}
    {a : String} (h : ResolveInv keys acc) (ha : a ∈ keys) (hs : a ∉ acc.1) :
    ResolveInv keys (a :: acc.1, acc.2 ++ [a]) := by
  obtain ⟨h1, h2, h3⟩ := h
  refine ⟨?_, ?_, ?_⟩
  · have : a ∉ acc.2 := fun hmem => hs (h3 a hmem)
    simp [List.nodup_append, h1, this]
  · intro x hx
    rcases List.mem_append.mp hx with hx | hx
    · exact h2 x hx
    · simp at hx; simpa [hx]
  · intro x hx
    rcases List.mem_append.mp hx with hx | hx
    · exact List.mem_cons_of_mem _ (h3 x hx)
    · simp at hx; simp [hx]

lemma groupFold_inv (keys : List String) :
    ∀ (members : List String) (acc : List String × List String),
      ResolveInv keys acc →
      ResolveInv keys
        (members.foldl
          (fun acc2 bulb_name =>
            if bulb_name ∈ keys ∧ bulb_name ∉ acc2.1 then
              (bulb_name :: acc2.1, acc2.2 ++ [bulb_name])
            else acc2)
          acc) := by
  intro members
  induction members with
  | nil => intro acc h; exact h
  | cons mem rest ih =>
      intro acc h
      simp only [List.foldl]
      split
      · next hc => exact ih _ (resolveInv_push h hc.1 hc.2)
      · exact ih _ h

lemma resolveStep_inv (m : BulbManager) (acc : List String × List String)
    (target : String) (h : ResolveInv m.bulbKeys acc) :
    ResolveInv m.bulbKeys (resolveStep m acc target) := by
  unfold resolveStep
  split
  · next ht =>
      split
      · next hs => exact resolveInv_push h ht hs
      · exact h
  · split
    · exact groupFold_inv m.bulbKeys _ acc h
    · exact h

lemma resolve_targets_inv (m : BulbManager) (targets : List String) :
    ∀ (acc : List String × List String), ResolveInv m.bulbKeys acc →
      ResolveInv m.bulbKeys (targets.foldl (resolveStep m) acc) := by
  induction targets with
  | nil => intro acc h; exact h
  | cons t rest ih =>
      intro acc h
      exact ih _ (resolveStep_inv m acc t h)

lemma resolve_targets_nodup (m : BulbManager) (targets : List String) :
    (m.resolve_targets targets).Nodup :=
  (resolve_targets_inv m targets ([], []) ⟨List.nodup_nil, by simp, by simp⟩).1

lemma resolve_targets_known (m : BulbManager) (targets : List String) :
    ∀ x ∈ m.resolve_targets targets, x ∈ m.bulbKeys :=
  (resolve_targets_inv m targets ([], []) ⟨List.nodup_nil, by simp, by simp⟩).2.1

lemma group_fold_snd (r g b : Int) (now : ℚ) (succ : String → Bool) :
    ∀ (ts : List String) (m : BulbManager) (acc : List (String × Bool)),
      (∀ n ∈ ts, n ∈ m.bulbKeys) →
      (ts.foldl
        (fun acc name =>
          let res := BulbManager.set_rgb acc.1 name r g b now (succ name)
          (res.1, acc.2 ++ [(name, res.2)]))
        (m, acc)).2
      = acc ++ ts.map (fun n => (n, succ n)) := by
  intro ts
  induction ts with
  | nil => intro m acc _; simp
  | cons n rest ih =>
      intro m acc hmem
      simp only [List.foldl, List.map]
      rw [set_rgb_ret m n r g b now (succ n) (hmem n (by simp))]
      rw [ih _ _ (fun x hx => by
        rw [set_rgb_keys]
        exact hmem x (List.mem_cons_of_mem _ hx))]
      simp

lemma update_hsv_fields (st : BulbState) (now : ℚ) :
    (update_hsv_from_rgb st now).r = st.r ∧
    (update_hsv_from_rgb st now).g = st.g ∧
    (update_hsv_from_rgb st now).b = st.b ∧
    (update_hsv_from_rgb st now).warm_white = st.warm_white ∧
    (update_hsv_from_rgb st now).online = st.online ∧
    (update_hsv_from_rgb st now).powerOn = st.powerOn := by
  unfold update_hsv_from_rgb
  split <;> simp

lemma get_status_response (bytes : List Nat) :
    get_status (.response bytes)
      = if bytes.length ≥ 14 then
          some { online := true,
                 powerOn := bytes.getD 2 0 == 0x23,
                 r := bytes.getD 6 0,
                 g := bytes.getD 7 0,
                 b := bytes.getD 8 0,
                 warm_white := bytes.getD 9 0 }
        else some offline_status := rfl

lemma get_status_total (tr : TransportResult) : ∃ s, get_status tr = some s := by
  cases tr with
  | raises => exact ⟨_, rfl⟩
  | response bytes =>
      rw [get_status_response]
      split <;> exact ⟨_, rfl⟩

lemma get_status_short (bytes : List Nat) (h : bytes.length < 14) :
    get_status (.response bytes) = some offline_status := by
  rw [get_status_response, if_neg (by omega)]

lemma get_status_long (bytes : List Nat) (h : 14 ≤ bytes.length) :
    get_status (.response bytes)
      = some { online := true,
               powerOn := bytes.getD 2 0 == 0x23,
               r := bytes.getD 6 0,
               g := bytes.getD 7 0,
               b := bytes.getD 8 0,
               warm_white := bytes.getD 9 0 } := by
  rw [get_status_response, if_pos h]

lemma refresh_bulb_guardInactive (st : BulbState) (now : ℚ)
    (tr : TransportResult) (hg : guardInactive st now) :
    refresh_bulb st now tr = refresh_query st now tr := by
  unfold refresh_bulb
  cases heq : st.last_command_time with
  | none => rfl
  | some t => simp [hg t heq]

lemma refresh_query_queried (st : BulbState) (now : ℚ) (tr : TransportResult) :
    (refresh_query st now tr).queried = true := by
  unfold refresh_query
  split <;> rfl

lemma refresh_query_bulb (st : BulbState) (now : ℚ) (tr : TransportResult)
    (s : Status) (hs : get_status tr = some s) :
    (refresh_query st now tr).bulb
      = update_hsv_from_rgb
          { st with
            online := s.online
            powerOn := s.powerOn
            r := (s.r : Int)
            g := (s.g : Int)
            b := (s.b : Int)
            warm_white := (s.warm_white : Int) } now
    ∧ (refresh_query st now tr).ret
      = (update_hsv_from_rgb
          { st with
            online := s.online
            powerOn := s.powerOn
            r := (s.r : Int)
            g := (s.g : Int)
            b := (s.b : Int)
            warm_white := (s.warm_white : Int) } now).online := by
  unfold refresh_query
  rw [hs]
  exact ⟨rfl, rfl⟩

lemma notify_fold (st : BulbState) :
    ∀ (subs : List Subscriber) (acc : Nat × List String),
      (subs.foldl
        (fun acc cb =>
          match cb st with
          | .ok _ => (acc.1 + 1, acc.2)
          | .error e => (acc.1 + 1, acc.2 ++ [e]))
        acc).1 = acc.1 + subs.length ∧
      (subs.foldl
        (fun acc cb =>
          match cb st with
          | .ok _ => (acc.1 + 1, acc.2)
          | .error e => (acc.1 + 1, acc.2 ++ [e]))
        acc).2
        = acc.2 ++ subs.filterMap
            (fun cb => match cb st with | .ok _ => none | .error e => some e) := by
  intro subs
  induction subs with
  | nil => intro acc; simp
  | cons cb rest ih =>
      intro acc
      cases hcb : cb st with
      | ok u =>
          simp only [List.foldl_cons, List.filterMap_cons, hcb]
          obtain ⟨ih1, ih2⟩ := ih (acc.1 + 1, acc.2)
          constructor
          · rw [ih1]; simp; rw [Nat.add_right_comm, Nat.add_assoc]
          · rw [ih2]
      | error e =>
          simp only [List.foldl_cons, List.filterMap_cons, hcb]
          obtain ⟨ih1, ih2⟩ := ih (acc.1 + 1, acc.2 ++ [e])
          constructor
          · rw [ih1]; simp; rw [Nat.add_right_comm, Nat.add_assoc]
          · rw [ih2]; simp

lemma refresh_bulb_cases (st : BulbState) (now : ℚ) (tr : TransportResult) :
    refresh_bulb st now tr = ⟨st, st.online, false⟩ ∨
    refresh_bulb st now tr = refresh_query st now tr := by
  unfold refresh_bulb
  cases heq : st.last_command_time with
  | none => right; rfl
  | some t =>
      by_cases hlt : now - t < 5
      · left; simp [hlt]
      · right; simp [hlt]

lemma set_rgb_lookup (m : BulbManager) (D : String) (st : BulbState)
    (r g b : Int) (now : ℚ) (hD : m.bulbs.lookup D = some st) :
    (BulbManager.set_rgb m D r g b now true).1.bulbs.lookup D
      = some (apply_rgb st r g b now) := by
  have hmem : D ∈ m.bulbKeys := lookup_mem_keys hD
  unfold BulbManager.set_rgb
  rw [if_pos hmem]
  simp only [if_true]
  rw [lookup_updateBulb, hD]
  rfl

lemma apply_rgb_fields (st : BulbState) (r g b : Int) (now : ℚ) :
    (apply_rgb st r g b now).r = r ∧
    (apply_rgb st r g b now).g = g ∧
    (apply_rgb st r g b now).b = b ∧
    (apply_rgb st r g b now).warm_white = 0 ∧
    (apply_rgb st r g b now).powerOn = true := by
  unfold apply_rgb
  obtain ⟨f1, f2, f3, f4, -, f6⟩ := update_hsv_fields
    { st with powerOn := true, r := r, g := g, b := b, warm_white := 0,
              last_command_time := some now } now
  exact ⟨f1, f2, f3, f4, f6⟩

lemma apply_rgb_hsv (st : BulbState) (r g b : Int) (now : ℚ) :
    ((apply_rgb st r g b now).h, (apply_rgb st r g b now).s,
     (apply_rgb st r g b now).v) = rgb_to_hsv r g b := by
  unfold apply_rgb update_hsv_from_rgb
  rw [if_neg (by simp)]

lemma apply_warm_white_fields (st : BulbState) (brightness : Int) (now : ℚ) :
    (apply_warm_white st brightness now).r = 0 ∧
    (apply_warm_white st brightness now).g = 0 ∧
    (apply_warm_white st brightness now).b = 0 ∧
    (apply_warm_white st brightness now).powerOn = true := by
  unfold apply_warm_white
  obtain ⟨f1, f2, f3, -, -, f6⟩ := update_hsv_fields
    { st with
      powerOn := true
      r := 0
      g := 0
      b := 0
      warm_white := pyint (((brightness : ℚ) / 100) * 255)
      last_command_time := some now } now
  exact ⟨f1, f2, f3, f6⟩

lemma refresh_query_fields (st : BulbState) (now : ℚ) (tr : TransportResult)
    (s : Status) (hs : get_status tr = some s) :
    (refresh_query st now tr).bulb.r = (s.r : Int) ∧
    (refresh_query st now tr).bulb.g = (s.g : Int) ∧
    (refresh_query st now tr).bulb.b = (s.b : Int) ∧
    (refresh_query st now tr).bulb.warm_white = (s.warm_white : Int) ∧
    (refresh_query st now tr).bulb.online = s.online ∧
    (refresh_query st now tr).bulb.powerOn = s.powerOn ∧
    (refresh_query st now tr).ret = s.online := by
  obtain ⟨hb, hr⟩ := refresh_query_bulb st now tr s hs
  obtain ⟨f1, f2, f3, f4, f5, f6⟩ := update_hsv_fields
    { st with
      online := s.online
      powerOn := s.powerOn
      r := (s.r : Int)
      g := (s.g : Int)
      b := (s.b : Int)
      warm_white := (s.warm_white : Int) } now
  rw [hb, hr]
  exact ⟨f1, f2, f3, f4, f5, f6, f5⟩

/-! ### Claim theorems -/

/-- C4: after each poll attempt, `_update_poll_interval` resets
`consecutive_failures` to 0 and `poll_interval` to 60 on success; on
failure it increments `consecutive_failures` and sets the interval by
tier — 120 after the 1st consecutive failure, 300 after the 2nd, 600 from
the 3rd on — so three consecutive failures starting from a clean state
yield the interval sequence 120, 300, 600 exactly. -/
theorem claim_C4 (st : BulbState) :
    ((update_poll_interval st true).consecutive_failures = 0 ∧
     (update_poll_interval st true).poll_interval = 60) ∧
    ((update_poll_interval st false).consecutive_failures
       = st.consecutive_failures + 1) ∧
    (st.consecutive_failures = 0 →
      (update_poll_interval st false).poll_interval = 120) ∧
    (st.consecutive_failures = 1 →
      (update_poll_interval st false).poll_interval = 300) ∧
    (2 ≤ st.consecutive_failures →
      (update_poll_interval st false).poll_interval = 600) ∧
    (st.consecutive_failures = 0 →
      (update_poll_interval st false).poll_interval = 120 ∧
      (update_poll_interval (update_poll_interval st false) false).poll_interval
        = 300 ∧
      (update_poll_interval
        (update_poll_interval (update_poll_interval st false) false)
        false).poll_interval = 600 ∧
      (update_poll_interval
        (update_poll_interval (update_poll_interval st false) false)
        false).consecutive_failures = 3) := by
  refine ⟨⟨?_, ?_⟩, ?_, ?_, ?_, ?_, ?_⟩
  · simp [update_poll_interval]
  · simp [update_poll_interval]
  · simp [update_poll_interval]
    split
    · rfl
    · split <;> rfl
  · intro h; simp [update_poll_interval, h]
  · intro h; simp [update_poll_interval, h]
  · intro h
    have h1 : st.consecutive_failures + 1 ≠ 1 := by omega
    have h2 : st.consecutive_failures + 1 ≠ 2 := by omega
    simp [update_poll_interval, h1, h2]
  · intro h
    refine ⟨by simp [update_poll_interval, h], ?_, ?_, ?_⟩ <;>
      simp [update_poll_interval, h]

/-- C4 witness: a freshly configured bulb has `consecutive_failures = 0`,
and three failed polls in a row produce intervals 120, 300, 600. -/
theorem claim_C4_witness :
    (BulbState.init "lamp" "192.168.1.10").consecutive_failures = 0 ∧
    ((update_poll_interval (BulbState.init "lamp" "192.168.1.10")
        false).poll_interval = 120 ∧
     (update_poll_interval
        (update_poll_interval (BulbState.init "lamp" "192.168.1.10") false)
        false).poll_interval = 300 ∧
     (update_poll_interval
        (update_poll_interval
          (update_poll_interval (BulbState.init "lamp" "192.168.1.10") false)
          false)
        false).poll_interval = 600 ∧
     (update_poll_interval
        (update_poll_interval
          (update_poll_interval (BulbState.init "lamp" "192.168.1.10") false)
          false)
        false).consecutive_failures = 3) :=
  ⟨rfl, (claim_C4 (BulbState.init "lamp" "192.168.1.10")).2.2.2.2.2 rfl⟩

/-- C5: `resolve_targets` returns a duplicate-free list of known device
names; on the spec's example (`lamp` a device, `livingroom` the group
`[lamp, sconce]`, `missing` unknown) it returns `[lamp, sconce]` —
deduplicated, order preserved, unknown name dropped silently; a group with
an unknown member (`ghost`) contributes only its known members, in the
group's defined order. -/
theorem claim_C5 :
    (∀ (m : BulbManager) (targets : List String),
      (m.resolve_targets targets).Nodup ∧
      ∀ x ∈ m.resolve_targets targets, x ∈ m.bulbKeys) ∧
    exampleManager.resolve_targets ["lamp", "missing", "livingroom"]
      = ["lamp", "sconce"] ∧
    exampleManager.resolve_targets ["porch"] = ["sconce", "lamp"] := by
  refine ⟨fun m targets =>
    ⟨resolve_targets_nodup m targets, resolve_targets_known m targets⟩, ?_, ?_⟩
  · rfl
  · rfl

/-- C5 witness: instantiation of the universal part on the example
configuration, with the membership hypothesis discharged concretely. -/
theorem claim_C5_witness :
    "sconce" ∈ exampleManager.resolve_targets ["livingroom"] ∧
    "sconce" ∈ exampleManager.bulbKeys :=
  ⟨by decide,
   (claim_C5.1 exampleManager ["livingroom"]).2 "sconce" (by decide)⟩

/-- C8: a refresh within 5 seconds of the cached `last_command_time`
returns the cached `online` flag, leaves the bulb state untouched, and
never performs the transport status query (for every transport oracle). -/
theorem claim_C8 (st : BulbState) (now t : ℚ) (tr : TransportResult)
    (h1 : st.last_command_time = some t) (h2 : now - t < 5) :
    refresh_bulb st now tr = ⟨st, st.online, false⟩ := by
  unfold refresh_bulb
  rw [h1]
  simp [h2]

/-- C8 witness: a bulb commanded at time 0 and refreshed at time 0
(0 seconds later) is not queried and keeps its state. -/
theorem claim_C8_witness :
    exBulbC2.last_command_time = some 0 ∧ ((0 : ℚ) - 0 < 5) ∧
    refresh_bulb exBulbC2 0 .raises = ⟨exBulbC2, exBulbC2.online, false⟩ :=
  ⟨rfl, by simp, claim_C8 exBulbC2 0 0 .raises rfl (by simp)⟩

/-- C9: `_notify_subscribers` invokes every registered subscriber exactly
once per state change — a raising callback is caught into the log and does
not stop delivery to the remaining subscribers — and the method itself
returns normally (its result is a plain pair, not an exception). -/
theorem claim_C9 (subs : List Subscriber) (st : BulbState) :
    (notify_subscribers subs st).1 = subs.length ∧
    (notify_subscribers subs st).2
      = subs.filterMap
          (fun cb => match cb st with | .ok _ => none | .error e => some e) := by
  have h := notify_fold st subs (0, [])
  unfold notify_subscribers
  simpa using h

/-- C9 witness: with a raising subscriber between two healthy ones, all
three are invoked and exactly the raised message is caught. -/
theorem claim_C9_witness :
    (notify_subscribers
      [fun _ => .ok (), fun _ => .error "boom", fun _ => .ok ()]
      (BulbState.init "lamp" "192.168.1.10")).1 = 3 ∧
    (notify_subscribers
      [fun _ => .ok (), fun _ => .error "boom", fun _ => .ok ()]
      (BulbState.init "lamp" "192.168.1.10")).2
      = ["boom"] := by
  have h := claim_C9
    [fun _ => .ok (), fun _ => .error "boom", fun _ => .ok ()]
    (BulbState.init "lamp" "192.168.1.10")
  exact ⟨h.1, h.2⟩

/-- C10: `LEDController.get_status` is total at the manager boundary: every
transport outcome yields `some` status dict; a raise or a sub-14-byte
response yields exactly the synthesized offline dict, whose fields are
`online=false`, `on=false`, `r=g=b=warm_white=0`.  Consequently `refresh_bulb`'s
`not isinstance(status, dict)` branch never fires when composed with this
transport. -/
theorem claim_C10 :
    (∀ tr, ∃ s, get_status tr = some s) ∧
    get_status .raises = some offline_status ∧
    (∀ bytes : List Nat, bytes.length < 14 →
      get_status (.response bytes) = some offline_status) ∧
    offline_status.online = false ∧ offline_status.powerOn = false ∧
    offline_status.r = 0 ∧ offline_status.g = 0 ∧ offline_status.b = 0 ∧
    offline_status.warm_white = 0 :=
  ⟨get_status_total, rfl, get_status_short, rfl, rfl, rfl, rfl, rfl, rfl⟩

/-- C10 witness: the empty response is shorter than 14 bytes and maps to the
offline status dict. -/
theorem claim_C10_witness :
    ([] : List Nat).length < 14 ∧
    get_status (.response []) = some offline_status :=
  ⟨by decide, claim_C10.2.2.1 [] (by decide)⟩

/-- C6: a successful `set_rgb(D, 255, 128, 0)` on a known device leaves the
cached state with `r=255, g=128, b=0, warm_white=0, on=true`, and the cached
hue/saturation/value equal `rgb_to_hsv 255 128 0` (whose exact value is
`(512/17, 100, 100)`, i.e. hue ≈ 30.1°, full saturation and value). -/
theorem claim_C6 (m : BulbManager) (D : String) (st : BulbState) (now : ℚ)
    (hD : m.bulbs.lookup D = some st) :
    ∃ st', (BulbManager.set_rgb m D 255 128 0 now true).1.bulbs.lookup D
        = some st' ∧
      st'.r = 255 ∧ st'.g = 128 ∧ st'.b = 0 ∧ st'.warm_white = 0 ∧
      st'.powerOn = true ∧
      (st'.h, st'.s, st'.v) = rgb_to_hsv 255 128 0 ∧
      rgb_to_hsv 255 128 0 = (512/17, 100, 100) := by
  obtain ⟨f1, f2, f3, f4, f5⟩ := apply_rgb_fields st 255 128 0 now
  exact ⟨apply_rgb st 255 128 0 now,
    set_rgb_lookup m D st 255 128 0 now hD,
    f1, f2, f3, f4, f5,
    apply_rgb_hsv st 255 128 0 now,
    by norm_num [rgb_to_hsv, pymod6]⟩

/-- C6 witness: the round trip on the concrete device `lamp` of the example
configuration. -/
theorem claim_C6_witness :
    exampleManager.bulbs.lookup "lamp"
      = some (BulbState.init "lamp" "192.168.1.10") ∧
    ∃ st', (BulbManager.set_rgb exampleManager "lamp" 255 128 0 0
        true).1.bulbs.lookup "lamp" = some st' ∧
      st'.r = 255 ∧ st'.g = 128 ∧ st'.b = 0 ∧ st'.warm_white = 0 ∧
      st'.powerOn = true ∧
      (st'.h, st'.s, st'.v) = rgb_to_hsv 255 128 0 ∧
      rgb_to_hsv 255 128 0 = (512/17, 100, 100) :=
  ⟨rfl, claim_C6 exampleManager "lamp" (BulbState.init "lamp" "192.168.1.10")
    0 rfl⟩

/-- C7: a group RGB command returns one entry per resolved device, in
resolution order, each carrying that device's own transport outcome — so
one device's failure neither aborts nor alters the result of the others;
in particular, on two known devices with only `lamp` succeeding, the result
is `{lamp: true, brokenbulb: false}`. -/
theorem claim_C7 :
    (∀ (m : BulbManager) (group_names : List String) (r g b : Int) (now : ℚ)
        (succ : String → Bool),
      (m.set_group_rgb group_names r g b now succ).2
        = (m.resolve_targets group_names).map (fun n => (n, succ n))) ∧
    (brokenManager.set_group_rgb ["lamp", "brokenbulb"] 255 0 0 0
        (fun n => n == "lamp")).2 = [("lamp", true), ("brokenbulb", false)] := by
  constructor
  · intro m gn r g b now succ
    unfold BulbManager.set_group_rgb
    have h := group_fold_snd r g b now succ (m.resolve_targets gn) m []
      (resolve_targets_known m gn)
    simpa using h
  · rfl

/-- C1 counterexample: a bulb cached with `r = 200` that is refreshed while
the transport raises ends with `r = 0` — the cached color is zeroed, not
preserved, because `get_status` synthesizes an all-zero offline dict that
the reconciliation branch copies verbatim. -/
theorem claim_C1_counterexample :
    exBulbC1.r = 200 ∧ exBulbC1.online = true ∧
    exBulbC1.last_command_time = none ∧
    (refresh_bulb exBulbC1 0 .raises).bulb.online = false ∧
    (refresh_bulb exBulbC1 0 .raises).ret = false ∧
    (refresh_bulb exBulbC1 0 .raises).bulb.r = 0 ∧
    (refresh_bulb exBulbC1 0 .raises).bulb.r ≠ exBulbC1.r := by
  refine ⟨rfl, rfl, rfl, rfl, rfl, rfl, ?_⟩
  decide

/-- C1 (amended): when the guard is inactive and the status query fails
(raise or short response), `refresh_bulb` sets `online := false` and returns
`false`, and — because `get_status` returns the synthesized all-zero offline
dict rather than `None` — overwrites `r`, `g`, `b`, `warm_white` with 0 and
`on` with `false` instead of preserving the pre-failure values. -/
theorem claim_C1_amended (st : BulbState) (now : ℚ) (tr : TransportResult)
    (hg : guardInactive st now) (hf : failedQuery tr) :
    (refresh_bulb st now tr).bulb.online = false ∧
    (refresh_bulb st now tr).ret = false ∧
    (refresh_bulb st now tr).bulb.powerOn = false ∧
    (refresh_bulb st now tr).bulb.r = 0 ∧
    (refresh_bulb st now tr).bulb.g = 0 ∧
    (refresh_bulb st now tr).bulb.b = 0 ∧
    (refresh_bulb st now tr).bulb.warm_white = 0 := by
  have hs : get_status tr = some offline_status := by
    rcases hf with rfl | ⟨bytes, rfl, hlen⟩
    · rfl
    · exact get_status_short bytes hlen
  rw [refresh_bulb_guardInactive st now tr hg]
  obtain ⟨f1, f2, f3, f4, f5, f6, f7⟩ :=
    refresh_query_fields st now tr offline_status hs
  exact ⟨f5, f7, f6, f1, f2, f3, f4⟩

/-- C1 witness: the amended statement at the concrete never-commanded bulb
`exBulbC1` with a raising transport. -/
theorem claim_C1_amended_witness :
    guardInactive exBulbC1 0 ∧ failedQuery .raises ∧
    ((refresh_bulb exBulbC1 0 .raises).bulb.online = false ∧
     (refresh_bulb exBulbC1 0 .raises).ret = false ∧
     (refresh_bulb exBulbC1 0 .raises).bulb.powerOn = false ∧
     (refresh_bulb exBulbC1 0 .raises).bulb.r = 0 ∧
     (refresh_bulb exBulbC1 0 .raises).bulb.g = 0 ∧
     (refresh_bulb exBulbC1 0 .raises).bulb.b = 0 ∧
     (refresh_bulb exBulbC1 0 .raises).bulb.warm_white = 0) :=
  ⟨(fun _t h => nomatch h : guardInactive exBulbC1 0), Or.inl rfl,
   claim_C1_amended exBulbC1 0 .raises (fun _t h => nomatch h) (Or.inl rfl)⟩

/-- C2 counterexample: `force_refresh_all` at time 2 on a device commanded
at time 0 does not query the transport at all (the 5-second guard inside
`refresh_bulb` fires) and reports the cached `online = true` even though the
transport would have raised — refuting "no skip logic suppresses the
transport query for any device". -/
theorem claim_C2_counterexample :
    (managerC2.force_refresh_calls 2 (fun _ => .raises)).map
        (fun p => (p.1, p.2.queried)) = [("lamp", false)] ∧
    (managerC2.force_refresh_all 2 (fun _ => .raises)).2 = [("lamp", true)] := by
  have hg : ((2 : ℚ) < 5) := by norm_num
  constructor
  · simp [BulbManager.force_refresh_calls, managerC2, exBulbC2, refresh_bulb, hg]
  · simp [BulbManager.force_refresh_all, BulbManager.force_refresh_calls,
          managerC2, exBulbC2, refresh_bulb, hg]

/-- C2 (amended): `force_refresh_all` issues a `refresh_bulb` call for every
configured device (no poller-level 10-second pre-filter or interval
scheduling), returning one result per device in configuration order; each
call still honors `refresh_bulb`'s own 5-second recent-command guard, and
whenever that guard is inactive the transport is queried.  (No overall
timeout bounds the bulk call in the source.) -/
theorem claim_C2_amended (m : BulbManager) (now : ℚ)
    (trs : String → TransportResult) :
    ((m.force_refresh_all now trs).2.map Prod.fst = m.bulbKeys) ∧
    (∀ name st, (name, st) ∈ m.bulbs → guardInactive st now →
      (refresh_bulb st now (trs name)).queried = true ∧
      (name, refresh_bulb st now (trs name)) ∈ m.force_refresh_calls now trs) := by
  constructor
  · simp [BulbManager.force_refresh_all, BulbManager.force_refresh_calls,
          BulbManager.bulbKeys, List.map_map]
  · intro name st hmem hg
    refine ⟨?_, ?_⟩
    · rw [refresh_bulb_guardInactive st now (trs name) hg]
      exact refresh_query_queried st now (trs name)
    · exact List.mem_map.mpr ⟨(name, st), hmem, rfl⟩

/-- C2 witness: the amended statement on the example configuration at a
device with no recorded command. -/
theorem claim_C2_amended_witness :
    ("sconce", BulbState.init "sconce" "192.168.1.11") ∈ exampleManager.bulbs ∧
    guardInactive (BulbState.init "sconce" "192.168.1.11") 0 ∧
    ((refresh_bulb (BulbState.init "sconce" "192.168.1.11") 0
        .raises).queried = true ∧
     ("sconce", refresh_bulb (BulbState.init "sconce" "192.168.1.11") 0 .raises)
       ∈ exampleManager.force_refresh_calls 0 (fun _ => .raises)) :=
  ⟨List.Mem.tail _ (List.Mem.head _),
   (fun _t h => nomatch h :
     guardInactive (BulbState.init "sconce" "192.168.1.11") 0),
   (claim_C2_amended exampleManager 0 (fun _ => .raises)).2 "sconce"
     (BulbState.init "sconce" "192.168.1.11")
     (List.Mem.tail _ (List.Mem.head _)) (fun _t h => nomatch h)⟩

/-- C3 counterexample: a state reachable by a single refresh — against a
14-byte status response reporting red byte 1 and warm-white byte 1 — has
`warm_white = 1 > 0` and `r = 1 ≠ 0`: the cached-state invariant
"`warm_white > 0` implies `r = g = b = 0`" fails under arbitrary transport
responses, because the reconciliation branch copies the response's bytes
verbatim. -/
theorem claim_C3_counterexample :
    Reachable (BulbState.init "lamp" "192.168.1.10")
      (refresh_bulb (BulbState.init "lamp" "192.168.1.10") 0
        (.response badBytes)).bulb ∧
    ¬ ww_inv
      (refresh_bulb (BulbState.init "lamp" "192.168.1.10") 0
        (.response badBytes)).bulb := by
  constructor
  · exact Reachable.refresh 0 _ (Reachable.refl _)
  · intro h
    exact absurd (h (by decide)).1 (by decide)

/-- C3 (amended): the invariant `warm_white > 0 → r = g = b = 0` is
preserved by `set_power`, `set_rgb` and `set_warm_white` (any outcome), by
any failed refresh, and by a refresh whose status response itself satisfies
the invariant on bytes 6-9; only a ≥14-byte response reporting nonzero
warm-white together with nonzero RGB can break it. -/
theorem claim_C3_amended (st : BulbState) (hb : ww_inv st) :
    (∀ (onFlag : Bool) (now : ℚ) (success : Bool),
      ww_inv (set_power st onFlag now success).1) ∧
    (∀ (r g b : Int) (now : ℚ) (success : Bool),
      ww_inv (set_rgb st r g b now success).1) ∧
    (∀ (brightness : Int) (now : ℚ) (success : Bool),
      ww_inv (set_warm_white st brightness now success).1) ∧
    (∀ now : ℚ, ww_inv (refresh_bulb st now .raises).bulb) ∧
    (∀ (now : ℚ) (bytes : List Nat),
      (0 < bytes.getD 9 0 →
        bytes.getD 6 0 = 0 ∧ bytes.getD 7 0 = 0 ∧ bytes.getD 8 0 = 0) →
      ww_inv (refresh_bulb st now (.response bytes)).bulb) := by
  refine ⟨?_, ?_, ?_, ?_, ?_⟩
  · intro onFlag now success
    cases success with
    | false => exact hb
    | true => intro hww; exact hb hww
  · intro r g b now success
    cases success with
    | false => exact hb
    | true =>
        intro hww
        obtain ⟨-, -, -, f4, -⟩ := apply_rgb_fields st r g b now
        rw [show (set_rgb st r g b now true).1 = apply_rgb st r g b now from rfl,
            f4] at hww
        exact absurd hww (by decide)
  · intro brightness now success
    cases success with
    | false => exact hb
    | true =>
        intro hww
        obtain ⟨f1, f2, f3, -⟩ := apply_warm_white_fields st brightness now
        exact ⟨f1, f2, f3⟩
  · intro now
    rcases refresh_bulb_cases st now .raises with h | h
    · rw [h]; exact hb
    · rw [h]
      obtain ⟨-, -, -, f4, -, -, -⟩ :=
        refresh_query_fields st now .raises offline_status rfl
      intro hww
      rw [f4] at hww
      exact absurd hww (by decide)
  · intro now bytes hbytes
    rcases refresh_bulb_cases st now (.response bytes) with h | h
    · rw [h]; exact hb
    · rw [h]
      by_cases hlen : 14 ≤ bytes.length
      · obtain ⟨f1, f2, f3, f4, -, -, -⟩ :=
          refresh_query_fields st now (.response bytes) _
            (get_status_long bytes hlen)
        intro hww
        rw [f4] at hww
        have hpos : 0 < bytes.getD 9 0 := by exact_mod_cast hww
        obtain ⟨h6, h7, h8⟩ := hbytes hpos
        refine ⟨?_, ?_, ?_⟩
        · rw [f1]; exact_mod_cast h6
        · rw [f2]; exact_mod_cast h7
        · rw [f3]; exact_mod_cast h8
      · obtain ⟨-, -, -, f4, -, -, -⟩ :=
          refresh_query_fields st now (.response bytes) _
            (get_status_short bytes (by omega))
        intro hww
        rw [f4] at hww
        exact absurd hww (by decide)

/-- C3 witness: the amended statement at a freshly configured bulb, with the
byte-condition hypothesis discharged on the empty response. -/
theorem claim_C3_amended_witness :
    ww_inv (BulbState.init "lamp" "192.168.1.10") ∧
    (0 < ([] : List Nat).getD 9 0 →
      ([] : List Nat).getD 6 0 = 0 ∧ ([] : List Nat).getD 7 0 = 0 ∧
      ([] : List Nat).getD 8 0 = 0) ∧
    ww_inv (refresh_bulb (BulbState.init "lamp" "192.168.1.10") 0
      (.response [])).bulb :=
  ⟨by decide, by decide,
   (claim_C3_amended (BulbState.init "lamp" "192.168.1.10")
     (by decide)).2.2.2.2 0 [] (by decide)⟩

end MagicClone
